import Mathlib

/-!
Verification of the BitTorrent leecher (package torrent) against its
natural-language specification.  Go code is shallowly embedded: byte
slices become List Nat (each entry one byte value), Go structs become
Lean structures, machine integers become Nat (or Int where a signed
conversion matters, with explicit reduction modulo 2 to the width), and
fallible code returns Except or Option.  The mutex-serialized scheduler
of DownloadFromPeer is embedded as an explicit state type with one
function per atomic (mutex-protected) transition of the source.
-/

namespace BitTorrent

/-! ## Byte-level helpers (encoding/binary, big-endian) -/

/-- Big-endian 16-bit serialization, as binary.BigEndian.PutUint16:
byte k is (v >> (8*(1-k))) truncated to a byte. -/
def putU16BE (n : Nat) : List Nat :=
  [n / 256 % 256, n % 256]

/-- Big-endian 32-bit serialization, as binary.BigEndian.PutUint32. -/
def putU32BE (n : Nat) : List Nat :=
  [n / 16777216 % 256, n / 65536 % 256, n / 256 % 256, n % 256]

/-- Big-endian 64-bit serialization, as binary.BigEndian.PutUint64. -/
def putU64BE (n : Nat) : List Nat :=
  [ n / 72057594037927936 % 256
  , n / 281474976710656 % 256
  , n / 1099511627776 % 256
  , n / 4294967296 % 256
  , n / 16777216 % 256
  , n / 65536 % 256
  , n / 256 % 256
  , n % 256 ]

/-- Big-endian 32-bit read of the first four bytes of a byte list,
as binary.Read into a uint32 / binary.BigEndian.Uint32. -/
def readU32BE (l : List Nat) : Nat :=
  l.getD 0 0 * 16777216 + l.getD 1 0 * 65536 + l.getD 2 0 * 256 + l.getD 3 0

/-- Extract len bytes of a byte list starting at off (the Go slice
expression buf[off : off+len] of an in-bounds region). -/
def slice (l : List Nat) (off len : Nat) : List Nat :=
  (l.drop off).take len

/-- Overwrite the region [off, off + src.length) of buf with src, as a
Go binary.BigEndian.PutUintN into buf[off:...] does. -/
def writeBytes (buf : List Nat) (off : Nat) (src : List Nat) : List Nat :=
  buf.take off ++ (src ++ buf.drop (off + src.length))

/-- Go copy(buf[off:off+n], src): copies min(n, src.length) bytes. -/
def goCopy (buf : List Nat) (off : Nat) (src : List Nat) (n : Nat) : List Nat :=
  writeBytes buf off (src.take n)

/-! ## HasPiece (p2p.go) -/

/-- HasPiece from p2p.go.  The Go nil bitfield is modelled as none.
Returns false for a nil bitfield, false when byteIndex = index / 8 is
at or past the end of the bitfield, and otherwise tests bit
7 - (index mod 8) of byte index / 8.  The list access carries the
in-bounds proof of the preceding length check, so the definition is
total and never reads out of range. -/
def hasPiece (bitfield : Option (List Nat)) (index : Nat) : Bool :=
  match bitfield with
  | none => false
  | some bf =>
    if h : index / 8 < bf.length then
      ((bf.get ⟨index / 8, h⟩) >>> (7 - index % 8)) &&& 1 == 1
    else
      false

/-! ## ReceiveMessage (p2p.go) -/

/-- A parsed wire message, as the Go Message struct.  The payload is an
Option so that the Go distinction between a nil slice (the keep-alive
result Message zero value) and a present payload survives the
embedding. -/
structure GoMsg where
  id : Nat
  payload : Option (List Nat)
deriving DecidableEq, Repr

/-- ReceiveMessage from p2p.go, over the incoming byte stream.  Reads a
4-byte big-endian length; a failed read (stream shorter than 4, or
shorter than the announced body) is an error; length 0 is the
keep-alive zero-value message; length above 1048576 (1 shl 20) is the
message-too-large error; otherwise the first body byte is the id and
the rest is the payload. -/
def receiveMessage (input : List Nat) : Except String GoMsg :=
  if input.length < 4 then
    .error "Reading message length"
  else
    let len := readU32BE (input.take 4)
    if len = 0 then
      .ok ⟨0, none⟩
    else if 1048576 < len then
      .error "Message too large"
    else if input.length < 4 + len then
      .error "Reading message"
    else
      let buf := (input.drop 4).take len
      .ok ⟨buf.getD 0 0, some (buf.drop 1)⟩

/-! ## Piece scheduler state (DownloadFromPeer, p2p.go)

DownloadFromPeer runs once per peer session.  The shared state is the
Downloaded flag vector, every access to which is guarded by
DownloadMutex, so each locked section is one atomic transition.  Each
session also keeps a local variable pieceIndex naming the piece it is
currently working on.  The state below is the Downloaded vector plus
the per-session pieceIndex variables (none when the session holds no
piece); each function is one mutex-protected section of the source. -/

/-- Scheduler state: the shared Downloaded vector together with each
session's local pieceIndex variable. -/
structure SchedState where
  downloaded : List Bool
  assigned : List (Option Nat)
deriving DecidableEq, Repr

/-- The selection loop of DownloadFromPeer: scan Downloaded from index
start upward and return the first index that is not yet taken and that
the peer's bitfield covers. -/
def findPiece (bf : Option (List Nat)) : List Bool → Nat → Option Nat
  | [], _ => none
  | d :: rest, start =>
    if !d && hasPiece bf start then some start
    else findPiece bf rest (start + 1)

/-- The mutex-protected selection section of DownloadFromPeer: when
session s holds no piece, pick the lowest not-yet-taken index covered
by bf, set its Downloaded flag, and record it as the session's
pieceIndex.  When nothing is assignable the state is unchanged (the
session then returns). -/
def applyAssign (st : SchedState) (s : Nat) (bf : Option (List Nat)) : SchedState :=
  match st.assigned.getD s none with
  | some _ => st
  | none =>
    match findPiece bf st.downloaded 0 with
    | none => st
    | some i => ⟨st.downloaded.set i true, st.assigned.set s (some i)⟩

/-- The Choke case of the block-receive loop of DownloadFromPeer: the
Downloaded flag of the session's piece is reset, but the session keeps
its local pieceIndex and continues requesting and collecting blocks of
that same piece. -/
def applyChokeMidPiece (st : SchedState) (s : Nat) : SchedState :=
  match st.assigned.getD s none with
  | none => st
  | some i => ⟨st.downloaded.set i false, st.assigned⟩

/-- The failure paths of DownloadFromPeer that end the session (failed
Request send, failed receive, short Piece payload): reset the
Downloaded flag of the assigned piece and return. -/
def applyFailReturn (st : SchedState) (s : Nat) : SchedState :=
  match st.assigned.getD s none with
  | none => st
  | some i => ⟨st.downloaded.set i false, st.assigned.set s none⟩

/-- A session delivering its completed, hash-checked piece to
pieceChan: the Downloaded flag stays set, the session's pieceIndex is
consumed and the session loops back to selection. -/
def applyComplete (st : SchedState) (s : Nat) : SchedState :=
  match st.assigned.getD s none with
  | none => st
  | some _ => ⟨st.downloaded, st.assigned.set s none⟩

/-! ## Piece length (DownloadFromPeer) and total size (utils.go) -/

/-- The piece length requested by DownloadFromPeer for a given piece
index: Torrent.PieceLength, except for the last index where it is
Torrent.Info.Length mod Torrent.PieceLength, replaced by
Torrent.PieceLength when that remainder is zero.  Info.Length is the
top-level length field of the info dictionary: the single-file length
in single-file mode, and 0 in multi-file mode (the key is absent from
a multi-file torrent, so bencode decoding leaves the zero value). -/
def requestedPieceLength (infoLength pieceLen : Nat) (numPieces pieceIndex : Nat) : Nat :=
  if pieceIndex = numPieces - 1 then
    let r := infoLength % pieceLen
    if r = 0 then pieceLen else r
  else
    pieceLen

/-- GetTotalSize from utils.go: the info Length for a single-file
torrent (empty files list), otherwise the sum of the file lengths. -/
def getTotalSize (infoLength : Nat) (fileLengths : List Nat) : Nat :=
  match fileLengths with
  | [] => infoLength
  | ls => ls.sum

/-- The piece length the specification prescribes: piece_length for
every index below num_pieces - 1 and
total_size - (num_pieces - 1) * piece_length for the last index. -/
def specPieceLength (totalSize pieceLen : Nat) (numPieces pieceIndex : Nat) : Nat :=
  if pieceIndex = numPieces - 1 then
    totalSize - (numPieces - 1) * pieceLen
  else
    pieceLen

/-! ## Piece message handling and piece completion (DownloadFromPeer) -/

/-- What the session control flow does next after a step. -/
inductive SessionAction where
  /-- The Go continue: stay in the download loop. -/
  | continueLoop
  /-- Send the completed piece to pieceChan and loop. -/
  | deliverPiece
  /-- The Go return: the session ends. -/
  | terminate
deriving DecidableEq, Repr

/-- The Piece case of the block-receive loop of DownloadFromPeer:
a payload shorter than 8 bytes ends the session (none); otherwise the
bytes after the 8-byte index/begin header are appended to the piece
buffer.  The source never reads the index and begin fields of the
payload. -/
def handlePieceMessage (payload : List Nat) (data : List Nat) : Option (List Nat) :=
  if payload.length < 8 then none
  else some (data ++ payload.drop 8)

/-- The end of a piece download in DownloadFromPeer: compare the SHA-1
digest of the piece buffer (passed in as hash, the value of
sha1.Sum(data)) with the expected piece hash.  On mismatch the
Downloaded flag of the piece is reset and the session continues with a
new selection round; on match the piece is delivered. -/
def finishPiece (downloaded : List Bool) (pieceIndex : Nat)
    (hash expected : List Nat) : List Bool × SessionAction :=
  if hash ≠ expected then
    (downloaded.set pieceIndex false, .continueLoop)
  else
    (downloaded, .deliverPiece)

/-! ## The writer loop of StartDownload (p2p.go) -/

/-- The writer-side state of StartDownload: the completed map (one
flag per piece index, a key once set is never deleted), the
completedCount counter and the shared Downloaded vector. -/
structure WriterState where
  completed : List Bool
  completedCount : Nat
  downloaded : List Bool
deriving DecidableEq, Repr

/-- One iteration of the pieceChan consumer loop of StartDownload for
a delivered piece, with the outcome of the WriteAt calls abstracted to
the flag writeFails.  An already-completed index is skipped.
Otherwise: a failed write only logs and resets the piece's Downloaded
flag; in every case the piece is then recorded in completed and
completedCount is incremented. -/
def writerStep (st : WriterState) (pieceIndex : Nat) (writeFails : Bool) : WriterState :=
  if st.completed.getD pieceIndex false then st
  else
    { completed := st.completed.set pieceIndex true
      completedCount := st.completedCount + 1
      downloaded := if writeFails then st.downloaded.set pieceIndex false else st.downloaded }

/-- The return of StartDownload after pieceChan closes: the error
Download incomplete when the completed map has fewer keys than
NumPieces, and nil (success, hence process exit code 0) otherwise. -/
def startDownloadResult (numPieces : Nat) (st : WriterState) : Except String Unit :=
  if st.completed.count true ≠ numPieces then .error "Download incomplete"
  else .ok ()

/-! ## Handshake validation (PerformHandshake, p2p.go) -/

/-- The Go Handshake struct as read back from the peer (68 bytes:
1 + 19 + 8 + 20 + 20); the reserved bytes are not inspected by the
source and are omitted. -/
structure HandshakeMsg where
  protocolNameLength : Nat
  protocol : List Nat
  infoHash : List Nat
  peerID : List Nat
deriving DecidableEq, Repr

/-- The bytes of the ASCII literal BitTorrent protocol. -/
def btProtocolBytes : List Nat :=
  [66, 105, 116, 84, 111, 114, 114, 101, 110, 116, 32,
   112, 114, 111, 116, 111, 99, 111, 108]

/-- The validation tail of PerformHandshake: reject when the first
byte differs from 19 or the protocol literal differs, then reject when
the info-hash differs from the torrent's, otherwise return the remote
peer id. -/
def validateHandshakeReply (resp : HandshakeMsg) (expectedInfoHash : List Nat) :
    Except String (List Nat) :=
  if resp.protocolNameLength ≠ 19 ∨ resp.protocol ≠ btProtocolBytes then
    .error "Invalid protocol in handshake"
  else if resp.infoHash ≠ expectedInfoHash then
    .error "Info hash mismatch in handshake"
  else
    .ok resp.peerID

/-- The peer list (each entry stands for the appended Peer record,
identified by its peer id) after PerformHandshake processes a reply:
a rejected reply leaves the list untouched (the function returns an
error before the append), a valid one appends the new peer. -/
def handshakePeersAfter (peers : List (List Nat)) (resp : HandshakeMsg)
    (expectedInfoHash : List Nat) : List (List Nat) :=
  match validateHandshakeReply resp expectedInfoHash with
  | .error _ => peers
  | .ok pid => peers ++ [pid]

/-! ## HTTP tracker query escaping (SendHTTPTrackerRequest, tracker.go)

The source builds the info_hash parameter with
params.Add with url.QueryEscape(string(infoHash)) and then calls
params.Encode, and url.Values.Encode itself applies url.QueryEscape to
every stored value, so the raw hash bytes pass through QueryEscape
twice.  queryEscape below is Go's url.QueryEscape on bytes: bytes
A-Z a-z 0-9 - _ . ~ are untouched, a space becomes +, any other byte
becomes a three-byte percent escape with uppercase hex digits. -/

/-- The ASCII code of the uppercase hex digit of a value below 16. -/
def hexUpper (n : Nat) : Nat :=
  if n ≤ 9 then n + 48 else n + 55

/-- Whether Go's url.QueryEscape leaves the byte unescaped: the
alphanumerics and the four marks hyphen, underscore, dot, tilde. -/
def isQuerySafe (c : Nat) : Bool :=
  (97 ≤ c && c ≤ 122)
    || (65 ≤ c && c ≤ 90)
    || (48 ≤ c && c ≤ 57)
    || c == 45
    || c == 46
    || c == 95
    || c == 126

/-- Go url.QueryEscape on a single byte. -/
def queryEscapeByte (c : Nat) : List Nat :=
  if c = 32 then [43]
  else if isQuerySafe c then [c]
  else [37, hexUpper (c / 16), hexUpper (c % 16)]

/-- Go url.QueryEscape on a byte string. -/
def queryEscape (s : List Nat) : List Nat :=
  (s.map queryEscapeByte).flatten

/-- The bytes of the info_hash parameter value in the query string
built by SendHTTPTrackerRequest: QueryEscape applied at the Add call,
then again by Values.Encode. -/
def infoHashParamValue (h : List Nat) : List Nat :=
  queryEscape (queryEscape h)

/-! ## CreateAnnounceRequest (tracker.go) -/

/-- CreateAnnounceRequest from tracker.go: a 98-byte buffer, zeroed by
make, with each field written at its fixed offset exactly as the
source's PutUint and copy calls do.  The ip argument is accepted but
never written, as in the source, so bytes 84 to 87 keep their zero
value.  num_want is a Go int32 and uint32(num_want) is its value
modulo 2 to the 32, i.e. the two's-complement reinterpretation. -/
def createAnnounceRequest (connectionID action transactionID : Nat)
    (infoHash : List Nat) (peerID : List Nat)
    (downloaded left uploaded : Nat) (event ip key : Nat)
    (num_want : Int) (port : Nat) : List Nat :=
  let b0 := List.replicate 98 0
  let b1 := writeBytes b0 0 (putU64BE connectionID)
  let b2 := writeBytes b1 8 (putU32BE action)
  let b3 := writeBytes b2 12 (putU32BE transactionID)
  let b4 := goCopy b3 16 infoHash 20
  let b5 := goCopy b4 36 peerID 20
  let b6 := writeBytes b5 56 (putU64BE downloaded)
  let b7 := writeBytes b6 64 (putU64BE left)
  let b8 := writeBytes b7 72 (putU64BE uploaded)
  let b9 := writeBytes b8 80 (putU32BE event)
  let b10 := writeBytes b9 88 (putU32BE key)
  let b11 := writeBytes b10 92 (putU32BE (num_want % 4294967296).toNat)
  writeBytes b11 96 (putU16BE port)

/-! ## Helper lemmas -/

theorem length_putU64BE (n : Nat) : (putU64BE n).length = 8 := rfl

theorem length_putU32BE (n : Nat) : (putU32BE n).length = 4 := rfl

theorem length_putU16BE (n : Nat) : (putU16BE n).length = 2 := rfl

/-- The effect of one in-bounds write on a buffer that is an already
written prefix P followed by untouched zero bytes: the region skipped
over (skip bytes past the end of P) stays zero, the src bytes land
after it, and the zero tail shrinks accordingly. -/
theorem writeBytes_step_gap (P : List Nat) (m skip : Nat) (src : List Nat) (off : Nat)
    (h : P.length + skip = off) (hm : skip + src.length ≤ m) :
    writeBytes (P ++ List.replicate m 0) off src
      = ((P ++ List.replicate skip 0) ++ src) ++ List.replicate (m - skip - src.length) 0 := by
  have hmin : min (off - P.length) m = skip := by omega
  have hdrop : off + src.length - P.length = skip + src.length := by omega
  have hPnil : P.drop (off + src.length) = [] := by
    rw [List.drop_eq_nil_iff]
    omega
  unfold writeBytes
  rw [List.take_append_eq_append_take, List.drop_append_eq_append_drop,
    List.take_of_length_le (by omega), List.take_replicate, hmin,
    hPnil, List.nil_append, List.drop_replicate, hdrop]
  have harith : m - (skip + src.length) = m - skip - src.length := by omega
  rw [harith]
  simp [List.append_assoc]

/-- Reading a region past a leading block skips the block. -/
theorem slice_append_skip (A B : List Nat) (off n : Nat) (hA : A.length ≤ off) :
    slice (A ++ B) off n = slice B (off - A.length) n := by
  unfold slice
  rw [List.drop_append_eq_append_drop, List.drop_eq_nil_iff.mpr hA, List.nil_append]

/-- Reading a leading block of exactly its own length. -/
theorem slice_append_self (A B : List Nat) (off n : Nat) (h0 : off = 0) (hn : A.length = n) :
    slice (A ++ B) off n = A := by
  subst h0
  unfold slice
  rw [List.drop_zero, List.take_left' hn]

/-- Reading a whole list of exactly its own length. -/
theorem slice_self (A : List Nat) (off n : Nat) (h0 : off = 0) (hn : A.length = n) :
    slice A off n = A := by
  subst h0
  unfold slice
  rw [List.drop_zero]
  exact List.take_of_length_le (by omega)

/-! ## Claim theorems -/

/--
C1 (code_bug evidence): the scheduler of DownloadFromPeer can put the
same piece in flight at two sessions at once.  Concrete run with one
piece and two sessions whose bitfields both cover piece 0: session 0
is assigned piece 0; session 0 then receives Choke mid-piece, which
resets the Downloaded flag of piece 0 while the session keeps its
local pieceIndex and keeps downloading the piece; session 1 then runs
the selection step and is assigned the very same piece 0.  In the
resulting state both sessions hold piece 0, contradicting the claimed
invariant that at most one session holds a piece in flight at any
instant.
-/
theorem scheduler_duplicate_inflight :
    applyAssign
      (applyChokeMidPiece
        (applyAssign ⟨[false], [none, none]⟩ 0 (some [128])) 0)
      1 (some [128])
      = ⟨[true], [some 0, some 0]⟩ := by
  decide

/--
C2 (code_bug evidence): the piece length requested by DownloadFromPeer
disagrees with the specified rule on multi-file torrents.  For a
multi-file torrent with files of lengths 10 and 20, piece length 16
and 2 pieces, the top-level info Length is 0 (the key is absent in
multi-file mode), so the code requests 16 bytes for the last piece,
while the specified value total_size - (num_pieces - 1) * piece_length
is 30 - 16 = 14.
-/
theorem requestedPieceLength_multifile_bug :
    requestedPieceLength 0 16 2 1 = 16 ∧
    specPieceLength (getTotalSize 0 [10, 20]) 16 2 1 = 14 ∧
    requestedPieceLength 0 16 2 1 ≠ specPieceLength (getTotalSize 0 [10, 20]) 16 2 1 := by
  decide

/--
C3 (code_bug evidence): SendHTTPTrackerRequest percent-encodes the
info-hash twice, not once.  For the 20-byte hash of zero bytes, the
singly-encoded form repeats the three characters percent zero zero,
but the value that reaches the query string repeats the five
characters percent two five zero zero: every escaped byte appears
double-escaped, so the query does not contain the raw bytes escaped
exactly once.
-/
theorem infoHash_param_double_escaped :
    infoHashParamValue (List.replicate 20 0)
      = (List.replicate 20 [37, 50, 53, 48, 48]).flatten ∧
    queryEscape (List.replicate 20 0)
      = (List.replicate 20 [37, 48, 48]).flatten ∧
    infoHashParamValue (List.replicate 20 0) ≠ queryEscape (List.replicate 20 0) := by
  decide

/--
C9 (code_bug evidence): when writing a delivered piece fails, the
writer loop of StartDownload resets the Downloaded flag but still
records the piece in the completed map and still counts it, so the
piece can never be re-written (later deliveries are skipped as already
written) and the final completeness check passes: StartDownload
returns nil and the process exits with code 0.  Concrete run with one
piece whose write fails.
-/
theorem writer_write_failure_still_completes :
    writerStep ⟨[false], 0, [true]⟩ 0 true = ⟨[true], 1, [false]⟩ ∧
    startDownloadResult 1 (writerStep ⟨[false], 0, [true]⟩ 0 true) = .ok () := by
  constructor
  · decide
  · rfl

/--
C5 counterexample: on a hash mismatch the session does not terminate.
With the piece buffer hashing to a value different from the expected
piece hash, the control flow of DownloadFromPeer is the Go continue
(a new selection round), not the Go return.
-/
theorem finishPiece_mismatch_not_terminate :
    (finishPiece [true] 0 [1] [2]).2 = SessionAction.continueLoop ∧
    (finishPiece [true] 0 [1] [2]).2 ≠ SessionAction.terminate := by
  decide

/--
C5 (amended): for every completed piece buffer whose SHA-1 digest
differs from the expected piece hash, the assigned piece is returned
to Missing (its Downloaded flag is reset so it can be re-assigned) and
the session continues with a new selection round; it does not
terminate.
-/
theorem finishPiece_mismatch_returns_and_continues
    (downloaded : List Bool) (pieceIndex : Nat) (hash expected : List Nat)
    (h : hash ≠ expected) :
    finishPiece downloaded pieceIndex hash expected
      = (downloaded.set pieceIndex false, .continueLoop) := by
  simp [finishPiece, h]

/-- Witness for the amended C5 theorem at a concrete mismatching
input. -/
theorem finishPiece_mismatch_returns_and_continues_witness :
    finishPiece [true] 0 [1] [2] = ([false], SessionAction.continueLoop) := by
  have h := finishPiece_mismatch_returns_and_continues [true] 0 [1] [2] (by decide)
  simpa using h

/--
C4 counterexample: a Piece message whose index field does not match
the assigned piece still has its block appended to the piece buffer.
With assigned piece 0 and expected offset 0, a Piece payload carrying
index 1, begin 0 and one data byte is appended (the buffer becomes
that byte) instead of being discarded (which would leave the buffer
empty).
-/
theorem piece_message_mismatched_block_appended :
    readU32BE ([0, 0, 0, 1, 0, 0, 0, 0, 7].take 4) = 1 ∧
    handlePieceMessage [0, 0, 0, 1, 0, 0, 0, 0, 7] [] = some [7] ∧
    handlePieceMessage [0, 0, 0, 1, 0, 0, 0, 0, 7] [] ≠ some [] := by
  decide

/--
C4 (amended): DownloadFromPeer performs no matching of the index and
begin fields of a Piece message: every Piece payload of length at
least 8 has its bytes after the 8-byte header appended to the piece
buffer, whatever its index and begin fields hold, and every shorter
payload terminates the session.
-/
theorem handlePieceMessage_spec (payload data : List Nat) :
    (payload.length < 8 → handlePieceMessage payload data = none) ∧
    (8 ≤ payload.length →
      handlePieceMessage payload data = some (data ++ payload.drop 8)) := by
  refine ⟨fun h => ?_, fun h => ?_⟩
  · simp [handlePieceMessage, h]
  · simp [handlePieceMessage, Nat.not_lt.mpr h]

/-- Witness for the amended C4 theorem at a concrete payload. -/
theorem handlePieceMessage_spec_witness :
    handlePieceMessage [0, 0, 0, 0, 0, 0, 0, 0, 5] [9] = some [9, 5] := by
  have h := (handlePieceMessage_spec [0, 0, 0, 0, 0, 0, 0, 0, 5] [9]).2 (by decide)
  simpa using h

/--
C10: HasPiece is total at its interface: a nil bitfield gives false,
an index whose byte position index / 8 is out of range gives false,
and otherwise the result is bit 7 - (index mod 8) of byte index / 8,
read through an access that carries the in-bounds proof, so the
bitfield is never read out of range.
-/
theorem hasPiece_total (bf : Option (List Nat)) (index : Nat) :
    (bf = none → hasPiece bf index = false) ∧
    (∀ l, bf = some l → l.length ≤ index / 8 → hasPiece bf index = false) ∧
    (∀ l, bf = some l → ∀ h : index / 8 < l.length,
      hasPiece bf index
        = (((l.get ⟨index / 8, h⟩) >>> (7 - index % 8)) &&& 1 == 1)) := by
  refine ⟨fun h => ?_, fun l h hlen => ?_, fun l h hlt => ?_⟩
  · subst h; rfl
  · subst h
    simp only [hasPiece]
    rw [dif_neg (Nat.not_lt.mpr hlen)]
  · subst h
    simp only [hasPiece]
    rw [dif_pos hlt]

/-- Witness for C10 at concrete inputs: a set bit, and a nil
bitfield. -/
theorem hasPiece_total_witness :
    hasPiece (some [128]) 0 = true ∧ hasPiece none 3 = false := by
  constructor
  · have h := (hasPiece_total (some [128]) 0).2.2 [128] rfl (by decide)
    simpa using h
  · exact (hasPiece_total none 3).1 rfl

/--
C6: ReceiveMessage framing, over every incoming byte stream that
covers the 4-byte length prefix.  The result is the keep-alive
zero-value message exactly when the big-endian length prefix is 0; it
is an error exactly when the prefix is nonzero and either exceeds
1048576 or the stream is too short for the announced body (a failed
read); otherwise it is the message whose id is the first body byte
and whose payload is the remaining length - 1 bytes.
-/
theorem receiveMessage_spec (input : List Nat) (h4 : 4 ≤ input.length) :
    (receiveMessage input = .ok ⟨0, none⟩ ↔ readU32BE (input.take 4) = 0) ∧
    ((∃ e, receiveMessage input = .error e) ↔
      (0 < readU32BE (input.take 4) ∧
        (1048576 < readU32BE (input.take 4) ∨
          input.length < 4 + readU32BE (input.take 4)))) ∧
    (0 < readU32BE (input.take 4) → readU32BE (input.take 4) ≤ 1048576 →
      4 + readU32BE (input.take 4) ≤ input.length →
      receiveMessage input
        = .ok ⟨input.getD 4 0,
            some ((input.drop 5).take (readU32BE (input.take 4) - 1))⟩) := by
  have hnot4 : ¬ input.length < 4 := by omega
  by_cases h0 : readU32BE (input.take 4) = 0
  · refine ⟨?_, ?_, ?_⟩
    · simp [receiveMessage, hnot4, h0]
    · simp [receiveMessage, hnot4, h0]
    · intro hpos _ _
      omega
  · by_cases hbig : 1048576 < readU32BE (input.take 4)
    · refine ⟨?_, ?_, ?_⟩
      · simp [receiveMessage, hnot4, h0, hbig]
      · simp [receiveMessage, hnot4, h0, hbig]
        omega
      · intro _ hle _
        omega
    · by_cases hshort : input.length < 4 + readU32BE (input.take 4)
      · refine ⟨?_, ?_, ?_⟩
        · simp [receiveMessage, hnot4, h0, hbig, hshort]
        · simp [receiveMessage, hnot4, h0, hbig, hshort]
          omega
        · intro _ _ hge
          omega
      · have hid : ((input.drop 4).take (readU32BE (input.take 4))).getD 0 0
            = input.getD 4 0 := by
          rw [List.getD_eq_getElem?_getD, List.getD_eq_getElem?_getD,
            List.getElem?_take_of_lt (by omega), List.getElem?_drop]
        have hpl : ((input.drop 4).take (readU32BE (input.take 4))).drop 1
            = (input.drop 5).take (readU32BE (input.take 4) - 1) := by
          rw [List.drop_take, List.drop_drop]
        have hrecv : receiveMessage input
            = .ok ⟨input.getD 4 0,
                some ((input.drop 5).take (readU32BE (input.take 4) - 1))⟩ := by
          simp only [receiveMessage]
          rw [if_neg hnot4, if_neg h0, if_neg hbig, if_neg hshort, hid, hpl]
        refine ⟨?_, ?_, fun _ _ _ => hrecv⟩
        · rw [hrecv]
          simp [h0]
        · rw [hrecv]
          simp
          omega

/-- Witness for C6 at a concrete stream: a one-byte body whose id is 7
and whose payload is empty. -/
theorem receiveMessage_spec_witness :
    receiveMessage [0, 0, 0, 1, 7] = .ok ⟨7, some []⟩ := by
  have h := (receiveMessage_spec [0, 0, 0, 1, 7] (by decide)).2.2
    (by decide) (by decide) (by decide)
  simpa using h

/--
C8: the validation tail of PerformHandshake.  A reply whose first byte
differs from 19, or whose 19-byte protocol literal differs from the
BitTorrent protocol string, or whose info-hash differs from the
torrent's, is rejected with an error and adds nothing to the peer
list; a reply passing all three checks yields the remote peer id,
which is appended to the peer list.
-/
theorem performHandshake_validation (resp : HandshakeMsg) (expected : List Nat)
    (peers : List (List Nat)) :
    ((resp.protocolNameLength ≠ 19 ∨ resp.protocol ≠ btProtocolBytes ∨
        resp.infoHash ≠ expected) →
      (∃ e, validateHandshakeReply resp expected = .error e) ∧
      handshakePeersAfter peers resp expected = peers) ∧
    (resp.protocolNameLength = 19 → resp.protocol = btProtocolBytes →
      resp.infoHash = expected →
      validateHandshakeReply resp expected = .ok resp.peerID ∧
      handshakePeersAfter peers resp expected = peers ++ [resp.peerID]) := by
  constructor
  · intro h
    by_cases h1 : resp.protocolNameLength ≠ 19 ∨ resp.protocol ≠ btProtocolBytes
    · constructor
      · exact ⟨"Invalid protocol in handshake", by
          simp [validateHandshakeReply, if_pos h1]⟩
      · simp [handshakePeersAfter, validateHandshakeReply, if_pos h1]
    · have h2 : resp.infoHash ≠ expected := by tauto
      constructor
      · exact ⟨"Info hash mismatch in handshake", by
          simp [validateHandshakeReply, if_neg h1, if_pos h2]⟩
      · simp [handshakePeersAfter, validateHandshakeReply, if_neg h1, if_pos h2]
  · intro h1 h2 h3
    have hcond : ¬ (resp.protocolNameLength ≠ 19 ∨ resp.protocol ≠ btProtocolBytes) := by
      simp [h1, h2]
    have hcond2 : ¬ resp.infoHash ≠ expected := by simp [h3]
    constructor
    · simp [validateHandshakeReply, if_neg hcond, if_neg hcond2]
    · simp [handshakePeersAfter, validateHandshakeReply, if_neg hcond, if_neg hcond2]

/-- Witness for C8: one accepted reply (peer id appended is returned)
and one rejected reply (wrong first byte, peer list untouched). -/
theorem performHandshake_validation_witness :
    validateHandshakeReply
      ⟨19, btProtocolBytes, List.replicate 20 1, List.replicate 20 2⟩
      (List.replicate 20 1) = .ok (List.replicate 20 2) ∧
    handshakePeersAfter []
      ⟨18, btProtocolBytes, List.replicate 20 1, List.replicate 20 2⟩
      (List.replicate 20 1) = [] := by
  constructor
  · exact ((performHandshake_validation
      ⟨19, btProtocolBytes, List.replicate 20 1, List.replicate 20 2⟩
      (List.replicate 20 1) []).2 rfl rfl rfl).1
  · exact ((performHandshake_validation
      ⟨18, btProtocolBytes, List.replicate 20 1, List.replicate 20 2⟩
      (List.replicate 20 1) []).1 (Or.inl (by decide))).2

/--
C7: CreateAnnounceRequest builds a 98-byte buffer with every field at
its fixed offset: connection-id big-endian at bytes 0 to 7, action at
8 to 11, transaction-id at 12 to 15, info-hash at 16 to 35, peer-id at
36 to 55, downloaded at 56 to 63, left at 64 to 71, uploaded at 72 to
79, event at 80 to 83, the ip field at 84 to 87 equal to 0 (the
source never writes that region, whatever the ip argument), key at 88
to 91, num_want as 32-bit two's complement at 92 to 95 (so -1 encodes
as four 255 bytes), and port at 96 to 97.
-/
theorem createAnnounceRequest_layout
    (connectionID action transactionID : Nat) (infoHash peerID : List Nat)
    (downloaded left uploaded : Nat) (event ip key : Nat)
    (num_want : Int) (port : Nat)
    (hIH : infoHash.length = 20) (hPID : peerID.length = 20) :
    (createAnnounceRequest connectionID action transactionID infoHash peerID
        downloaded left uploaded event ip key num_want port).length = 98 ∧
    slice (createAnnounceRequest connectionID action transactionID infoHash peerID
        downloaded left uploaded event ip key num_want port) 0 8 = putU64BE connectionID ∧
    slice (createAnnounceRequest connectionID action transactionID infoHash peerID
        downloaded left uploaded event ip key num_want port) 8 4 = putU32BE action ∧
    slice (createAnnounceRequest connectionID action transactionID infoHash peerID
        downloaded left uploaded event ip key num_want port) 12 4 = putU32BE transactionID ∧
    slice (createAnnounceRequest connectionID action transactionID infoHash peerID
        downloaded left uploaded event ip key num_want port) 16 20 = infoHash ∧
    slice (createAnnounceRequest connectionID action transactionID infoHash peerID
        downloaded left uploaded event ip key num_want port) 36 20 = peerID ∧
    slice (createAnnounceRequest connectionID action transactionID infoHash peerID
        downloaded left uploaded event ip key num_want port) 56 8 = putU64BE downloaded ∧
    slice (createAnnounceRequest connectionID action transactionID infoHash peerID
        downloaded left uploaded event ip key num_want port) 64 8 = putU64BE left ∧
    slice (createAnnounceRequest connectionID action transactionID infoHash peerID
        downloaded left uploaded event ip key num_want port) 72 8 = putU64BE uploaded ∧
    slice (createAnnounceRequest connectionID action transactionID infoHash peerID
        downloaded left uploaded event ip key num_want port) 80 4 = putU32BE event ∧
    slice (createAnnounceRequest connectionID action transactionID infoHash peerID
        downloaded left uploaded event ip key num_want port) 84 4 = [0, 0, 0, 0] ∧
    slice (createAnnounceRequest connectionID action transactionID infoHash peerID
        downloaded left uploaded event ip key num_want port) 88 4 = putU32BE key ∧
    slice (createAnnounceRequest connectionID action transactionID infoHash peerID
        downloaded left uploaded event ip key num_want port) 92 4 = putU32BE (num_want % 4294967296).toNat ∧
    slice (createAnnounceRequest connectionID action transactionID infoHash peerID
        downloaded left uploaded event ip key num_want port) 96 2 = putU16BE port := by
  have hIHt : infoHash.take 20 = infoHash := List.take_of_length_le (by omega)
  have hPIDt : peerID.take 20 = peerID := List.take_of_length_le (by omega)
  have hflat : createAnnounceRequest connectionID action transactionID infoHash peerID
      downloaded left uploaded event ip key num_want port
      = putU64BE connectionID ++ (putU32BE action ++ (putU32BE transactionID ++
        (infoHash ++ (peerID ++ (putU64BE downloaded ++ (putU64BE left ++
        (putU64BE uploaded ++ (putU32BE event ++ (List.replicate 4 0 ++
        (putU32BE key ++ (putU32BE (num_want % 4294967296).toNat ++
        putU16BE port))))))))))) := by
    simp only [createAnnounceRequest, goCopy, hIHt, hPIDt]
    rw [← List.nil_append (List.replicate 98 (0:Nat))]
    rw [writeBytes_step_gap _ _ 0, writeBytes_step_gap _ _ 0, writeBytes_step_gap _ _ 0,
      writeBytes_step_gap _ _ 0, writeBytes_step_gap _ _ 0, writeBytes_step_gap _ _ 0,
      writeBytes_step_gap _ _ 0, writeBytes_step_gap _ _ 0, writeBytes_step_gap _ _ 0,
      writeBytes_step_gap _ _ 4, writeBytes_step_gap _ _ 0, writeBytes_step_gap _ _ 0]
    · simp [List.append_assoc, length_putU64BE, length_putU32BE, length_putU16BE,
        hIH, hPID]
    all_goals try simp only [List.length_append, List.length_nil, List.length_replicate,
      length_putU64BE, length_putU32BE, length_putU16BE, hIH, hPID]
    all_goals omega
  refine ⟨?_, ?_, ?_, ?_, ?_, ?_, ?_, ?_, ?_, ?_, ?_, ?_, ?_, ?_⟩
  · rw [hflat]
    simp [List.length_append, List.length_replicate, length_putU64BE,
      length_putU32BE, length_putU16BE, hIH, hPID]
  · rw [hflat, slice_append_self _ _ _ _]
    all_goals try simp only [List.length_append, List.length_nil, List.length_replicate,
        length_putU64BE, length_putU32BE, length_putU16BE, hIH, hPID]
    all_goals try rfl
    all_goals omega
  · rw [hflat, slice_append_skip,
      slice_append_self _ _ _ _]
    all_goals try simp only [List.length_append, List.length_nil, List.length_replicate,
        length_putU64BE, length_putU32BE, length_putU16BE, hIH, hPID]
    all_goals try rfl
    all_goals omega
  · rw [hflat, slice_append_skip,
      slice_append_skip,
      slice_append_self _ _ _ _]
    all_goals try simp only [List.length_append, List.length_nil, List.length_replicate,
        length_putU64BE, length_putU32BE, length_putU16BE, hIH, hPID]
    all_goals try rfl
    all_goals omega
  · rw [hflat, slice_append_skip,
      slice_append_skip,
      slice_append_skip,
      slice_append_self _ _ _ _]
    all_goals try simp only [List.length_append, List.length_nil, List.length_replicate,
        length_putU64BE, length_putU32BE, length_putU16BE, hIH, hPID]
    all_goals try rfl
    all_goals omega
  · rw [hflat, slice_append_skip,
      slice_append_skip,
      slice_append_skip,
      slice_append_skip,
      slice_append_self _ _ _ _]
    all_goals try simp only [List.length_append, List.length_nil, List.length_replicate,
        length_putU64BE, length_putU32BE, length_putU16BE, hIH, hPID]
    all_goals try rfl
    all_goals omega
  · rw [hflat, slice_append_skip,
      slice_append_skip,
      slice_append_skip,
      slice_append_skip,
      slice_append_skip,
      slice_append_self _ _ _ _]
    all_goals try simp only [List.length_append, List.length_nil, List.length_replicate,
        length_putU64BE, length_putU32BE, length_putU16BE, hIH, hPID]
    all_goals try rfl
    all_goals omega
  · rw [hflat, slice_append_skip,
      slice_append_skip,
      slice_append_skip,
      slice_append_skip,
      slice_append_skip,
      slice_append_skip,
      slice_append_self _ _ _ _]
    all_goals try simp only [List.length_append, List.length_nil, List.length_replicate,
        length_putU64BE, length_putU32BE, length_putU16BE, hIH, hPID]
    all_goals try rfl
    all_goals omega
  · rw [hflat, slice_append_skip,
      slice_append_skip,
      slice_append_skip,
      slice_append_skip,
      slice_append_skip,
      slice_append_skip,
      slice_append_skip,
      slice_append_self _ _ _ _]
    all_goals try simp only [List.length_append, List.length_nil, List.length_replicate,
        length_putU64BE, length_putU32BE, length_putU16BE, hIH, hPID]
    all_goals try rfl
    all_goals omega
  · rw [hflat, slice_append_skip,
      slice_append_skip,
      slice_append_skip,
      slice_append_skip,
      slice_append_skip,
      slice_append_skip,
      slice_append_skip,
      slice_append_skip,
      slice_append_self _ _ _ _]
    all_goals try simp only [List.length_append, List.length_nil, List.length_replicate,
        length_putU64BE, length_putU32BE, length_putU16BE, hIH, hPID]
    all_goals try rfl
    all_goals omega
  · rw [hflat, slice_append_skip,
      slice_append_skip,
      slice_append_skip,
      slice_append_skip,
      slice_append_skip,
      slice_append_skip,
      slice_append_skip,
      slice_append_skip,
      slice_append_skip,
      slice_append_self _ _ _ _]
    all_goals try simp only [List.length_append, List.length_nil, List.length_replicate,
        length_putU64BE, length_putU32BE, length_putU16BE, hIH, hPID]
    all_goals try rfl
    all_goals omega
  · rw [hflat, slice_append_skip,
      slice_append_skip,
      slice_append_skip,
      slice_append_skip,
      slice_append_skip,
      slice_append_skip,
      slice_append_skip,
      slice_append_skip,
      slice_append_skip,
      slice_append_skip,
      slice_append_self _ _ _ _]
    all_goals try simp only [List.length_append, List.length_nil, List.length_replicate,
        length_putU64BE, length_putU32BE, length_putU16BE, hIH, hPID]
    all_goals try rfl
    all_goals omega
  · rw [hflat, slice_append_skip,
      slice_append_skip,
      slice_append_skip,
      slice_append_skip,
      slice_append_skip,
      slice_append_skip,
      slice_append_skip,
      slice_append_skip,
      slice_append_skip,
      slice_append_skip,
      slice_append_skip,
      slice_append_self _ _ _ _]
    all_goals try simp only [List.length_append, List.length_nil, List.length_replicate,
        length_putU64BE, length_putU32BE, length_putU16BE, hIH, hPID]
    all_goals try rfl
    all_goals omega
  · rw [hflat, slice_append_skip,
      slice_append_skip,
      slice_append_skip,
      slice_append_skip,
      slice_append_skip,
      slice_append_skip,
      slice_append_skip,
      slice_append_skip,
      slice_append_skip,
      slice_append_skip,
      slice_append_skip,
      slice_append_skip,
      slice_self _ _ _]
    all_goals try simp only [List.length_append, List.length_nil, List.length_replicate,
        length_putU64BE, length_putU32BE, length_putU16BE, hIH, hPID]
    all_goals try rfl
    all_goals omega

/-- Witness for C7 at concrete arguments: the num_want field for
num_want = -1 is the four bytes 255, and the ip region is zero. -/
theorem createAnnounceRequest_layout_witness :
    slice (createAnnounceRequest 1 2 3 (List.replicate 20 9) (List.replicate 20 8)
      4 5 6 2 0 7 (-1) 6881) 92 4 = [255, 255, 255, 255] ∧
    slice (createAnnounceRequest 1 2 3 (List.replicate 20 9) (List.replicate 20 8)
      4 5 6 2 0 7 (-1) 6881) 84 4 = [0, 0, 0, 0] := by
  have h := createAnnounceRequest_layout 1 2 3 (List.replicate 20 9) (List.replicate 20 8)
    4 5 6 2 0 7 (-1) 6881 (by simp) (by simp)
  constructor
  · exact (h.2.2.2.2.2.2.2.2.2.2.2.2.1).trans (by decide)
  · exact h.2.2.2.2.2.2.2.2.2.2.1

end BitTorrent
